import Mathlib

/-!
Shallow embedding of the Decision Intelligence dashboard (`src/App/app.py`).

Tables are lists of row structures; currency amounts and numeric columns are
modelled as rationals.  Pandas/NumPy operations that can produce IEEE special
values (mean of an empty column, division by zero) are modelled with `PdVal`,
a rational extended with signed infinities and NaN; operations that can raise
a Python exception are modelled with `Except AppError`.
-/

instance {ε α : Type} [DecidableEq ε] [DecidableEq α] : DecidableEq (Except ε α) := fun a b =>
  match a, b with
  | .error e₁, .error e₂ => if h : e₁ = e₂ then .isTrue (by rw [h]) else .isFalse (by simp [h])
  | .error _, .ok _ => .isFalse (by simp)
  | .ok _, .error _ => .isFalse (by simp)
  | .ok v₁, .ok v₂ => if h : v₁ = v₂ then .isTrue (by rw [h]) else .isFalse (by simp [h])

/-- Value of a pandas/NumPy float expression: a finite rational, a signed
infinity, or NaN. -/
inductive PdVal where
  | fin (q : ℚ)
  | posInf
  | negInf
  | nan
deriving DecidableEq

/-- NumPy float division `a / b`: finite quotient for a nonzero denominator;
for a zero denominator it silently yields `inf`, `-inf` or `nan` according to
the sign of the numerator (no exception is raised). -/
def pdDiv (a b : ℚ) : PdVal :=
  if b ≠ 0 then .fin (a / b)
  else if 0 < a then .posInf
  else if a < 0 then .negInf
  else .nan

/-- Pandas `Series.mean()`: NaN on an empty column, otherwise the arithmetic
mean. -/
def pdMean (l : List ℚ) : PdVal :=
  if l.isEmpty then .nan
  else .fin (l.sum / l.length)

/-- Python `int(...)` applied to a numeric value: truncation toward zero. -/
def pyInt (q : ℚ) : ℤ :=
  if 0 ≤ q then q.floor else q.ceil

/-- Calendar date produced by `pd.to_datetime`. -/
structure Date where
  year : ℕ
  month : ℕ
  day : ℕ
deriving DecidableEq

/-- Python exceptions the embedded script can raise. -/
inductive AppError where
  | fileError
  | parseError
  | indexError
  | keyError
deriving DecidableEq

/-- Errors named by the specification's error taxonomy (used by the
definitions that follow the spec's words, for comparison with the code). -/
inductive SpecError where
  | dataSourceError
  | dataFormatError
  | validationError
  | emptyInputError
  | divisionByZeroError
  | invalidSelectionError
  | segmentNotFoundError
  | unknownViewError
deriving DecidableEq

/-- Row of `revenue_forecast_scenarios.csv` as read from disk, before the
`Date` column is coerced. -/
structure RawForecastRow where
  date : String
  base_forecast : ℚ
  best_case : ℚ
  worst_case : ℚ
  upper_ci : ℚ
  lower_ci : ℚ
deriving DecidableEq

/-- Row of the forecast table after date coercion. -/
structure ForecastRow where
  date : Date
  base_forecast : ℚ
  best_case : ℚ
  worst_case : ℚ
  upper_ci : ℚ
  lower_ci : ℚ
deriving DecidableEq

/-- Row of `roi_simulation_results.csv`. -/
structure ROIRow where
  segment : String
  investment : ℚ
  projected_gain : ℚ
  roi : ℚ
  breakeven_revenue : ℚ
deriving DecidableEq

/-- Row of `segment_decision_summary.csv`.  `Customer_Count` is kept rational
because the CSV is not guaranteed to hold integral values. -/
structure SegmentRow where
  cluster : String
  decision_action : String
  customer_count : ℚ
  avg_recency : ℚ
  avg_frequency : ℚ
  avg_monetary : ℚ
deriving DecidableEq

/-- Gregorian leap-year test. -/
def isLeapYear (y : ℕ) : Bool :=
  (y % 4 == 0 && y % 100 != 0) || (y % 400 == 0)

/-- Number of days of month `m` of year `y`. -/
def daysInMonth (y m : ℕ) : ℕ :=
  if m == 2 then (if isLeapYear y then 29 else 28)
  else if m == 4 || m == 6 || m == 9 || m == 11 then 30
  else 31

/-- Validity of a year/month/day triple. -/
def isValidDate (y m d : ℕ) : Bool :=
  1 ≤ m && m ≤ 12 && 1 ≤ d && d ≤ daysInMonth y m

/-- Resolution of a slash-separated numeral pair `a/b/y` under
`pd.to_datetime(..., dayfirst=True)`: the day-first reading `a=day, b=month`
is preferred; pandas' dayfirst flag is not strict, so when the day-first
reading is not a valid date the month-first reading `a=month, b=day` is
tried; if neither reading is valid the value is unparseable. -/
def parseTriple (a b y : ℕ) : Option Date :=
  if isValidDate y b a then some ⟨y, b, a⟩
  else if isValidDate y a b then some ⟨y, a, b⟩
  else none

/-- Numeric value of a decimal digit character. -/
def digitVal (c : Char) : Option ℕ :=
  if c.isDigit then some (c.toNat - 48) else none

/-- Decimal numeral reading of a character run; `none` when the run is empty
or holds a non-digit. -/
def natFromDigits (cs : List Char) : Option ℕ :=
  if cs.isEmpty then none
  else cs.foldl (fun acc c =>
    match acc, digitVal c with
    | some n, some d => some (n * 10 + d)
    | _, _ => none) (some 0)

/-- Splits a character list at each slash. -/
def splitSlash : List Char → List Char → List (List Char)
  | [], acc => [acc.reverse]
  | c :: cs, acc =>
    if c = '/' then acc.reverse :: splitSlash cs []
    else splitSlash cs (c :: acc)

/-- Model of `pd.to_datetime(s, dayfirst=True)` on one slash-separated numeric
date string (the format the forecast file uses). -/
def parseDateDayFirst (s : String) : Option Date :=
  match splitSlash s.toList [] with
  | [as, bs, ys] =>
    match natFromDigits as, natFromDigits bs, natFromDigits ys with
    | some a, some b, some y => parseTriple a b y
    | _, _, _ => none
  | _ => none

/-- Coercion of the `Date` column of the forecast table
(`forecast_df['Date'] = pd.to_datetime(forecast_df['Date'], dayfirst=True)`):
the whole column is converted, raising on the first unparseable value. -/
def parseDates : List RawForecastRow → Except AppError (List ForecastRow)
  | [] => .ok []
  | r :: rs =>
    match parseDateDayFirst r.date with
    | none => .error .parseError
    | some d =>
      match parseDates rs with
      | .error e => .error e
      | .ok fs => .ok (⟨d, r.base_forecast, r.best_case, r.worst_case,
                       r.upper_ci, r.lower_ci⟩ :: fs)

/-- Model of `pd.read_csv` on a file that is either absent/unreadable
(`none`) or holds the given rows. -/
def read_csv {α : Type} : Option (List α) → Except AppError (List α)
  | none => .error .fileError
  | some rows => .ok rows

/-- Model of `load_data()`: reads the three CSV files, then coerces the
forecast `Date` column.  Any failure propagates. -/
def load_data (ff : Option (List RawForecastRow)) (rf : Option (List ROIRow))
    (sf : Option (List SegmentRow)) :
    Except AppError (List ForecastRow × List ROIRow × List SegmentRow) :=
  match read_csv ff with
  | .error e => .error e
  | .ok fraw =>
    match read_csv rf with
    | .error e => .error e
    | .ok roi =>
      match read_csv sf with
      | .error e => .error e
      | .ok seg =>
        match parseDates fraw with
        | .error e => .error e
        | .ok fc => .ok (fc, roi, seg)

/-- KPI tile `int(segment_df['Customer_Count'].sum())`. -/
def total_customers (seg : List SegmentRow) : ℤ :=
  pyInt (seg.map (fun r => r.customer_count)).sum

/-- KPI tile `roi_df['Projected_Gain'].sum()`. -/
def total_gain (roi : List ROIRow) : ℚ :=
  (roi.map (fun r => r.projected_gain)).sum

/-- KPI tile `roi_df['ROI'].mean()`. -/
def avg_roi (roi : List ROIRow) : PdVal :=
  pdMean (roi.map (fun r => r.roi))

/-- KPI tile `roi_df['Investment'].sum()`. -/
def total_inv (roi : List ROIRow) : ℚ :=
  (roi.map (fun r => r.investment)).sum

/-- The four KPI tiles of the Executive Summary view. -/
structure ExecKPIs where
  customers : ℤ
  gain : ℚ
  roiAvg : PdVal
  inv : ℚ
deriving DecidableEq

/-- KPI block of the Executive Summary view. -/
def execKPIs (roi : List ROIRow) (seg : List SegmentRow) : ExecKPIs :=
  ⟨total_customers seg, total_gain roi, avg_roi roi, total_inv roi⟩

/-- Data bound to the donut chart `px.pie(segment_df, values='Customer_Count',
names='Decision_Action')`, one entry per table row. -/
def pieData (seg : List SegmentRow) : List (String × ℚ) :=
  seg.map (fun r => (r.decision_action, r.customer_count))

/-- Ascending comparison on the `ROI` column. -/
def roiLE (a b : ROIRow) : Prop := a.roi ≤ b.roi

instance : DecidableRel roiLE := fun a b => inferInstanceAs (Decidable (a.roi ≤ b.roi))

instance : IsTotal ROIRow roiLE := ⟨fun a b => le_total a.roi b.roi⟩

instance : IsTrans ROIRow roiLE := ⟨fun _ _ _ h h2 => le_trans h h2⟩

/-- Row order of `roi_df.sort_values('ROI', ascending=False)`.  Pandas
computes a descending sort by reversing an ascending argsort of the column
(`nargsort`: `indexer = indexer[::-1]`); for the short tables at hand NumPy's
introsort runs its insertion-sort branch, which is stable, so the behaviour
is modelled exactly as the reverse of a stable ascending insertion sort. -/
def sort_values_roi_desc (roi : List ROIRow) : List ROIRow :=
  (List.insertionSort roiLE roi).reverse

/-- Data bound to the `fig_bar` chart of the Executive Summary view. -/
def roiBarData (roi : List ROIRow) : List ROIRow :=
  sort_values_roi_desc roi

/-- One plotly trace of the forecasting figure. -/
inductive Trace where
  | band (x : List Date) (y : List ℚ)
  | line (scenarioName : String) (x : List Date) (y : List ℚ)
deriving DecidableEq

/-- Shaded confidence-interval trace: x is the date column followed by its
reverse, y is `Upper_CI` followed by reversed `Lower_CI`. -/
def bandTrace (f : List ForecastRow) : Trace :=
  .band (f.map (fun r => r.date) ++ (f.map (fun r => r.date)).reverse)
        (f.map (fun r => r.upper_ci) ++ (f.map (fun r => r.lower_ci)).reverse)

/-- Column access `forecast_df[scenarioName]` restricted to the columns the
multiselect offers; any other string raises a `KeyError`. -/
def scenarioColumn (f : List ForecastRow) (scenarioName : String) :
    Except AppError (List ℚ) :=
  if scenarioName == "Base_Forecast" then .ok (f.map (fun r => r.base_forecast))
  else if scenarioName == "Best_Case" then .ok (f.map (fun r => r.best_case))
  else if scenarioName == "Worst_Case" then .ok (f.map (fun r => r.worst_case))
  else .error .keyError

/-- Loop `for scenario in scenarios: fig_forecast.add_trace(...)`: one line
trace per selected scenario, in selection order. -/
def addScenarioLines (f : List ForecastRow) : List String → Except AppError (List Trace)
  | [] => .ok []
  | n :: ns =>
    match scenarioColumn f n with
    | .error e => .error e
    | .ok ys =>
      match addScenarioLines f ns with
      | .error e => .error e
      | .ok ts => .ok (Trace.line n (f.map (fun r => r.date)) ys :: ts)

/-- Traces of the Revenue Forecasting figure: the confidence band is added
first, then one line per selected scenario. -/
def fig_forecast (f : List ForecastRow) (scenarios : List String) :
    Except AppError (List Trace) :=
  match addScenarioLines f scenarios with
  | .error e => .error e
  | .ok ts => .ok (bandTrace f :: ts)

/-- Initial value of the scenario multiselect (`default=['Base_Forecast']`). -/
def scenariosDefault : List String := ["Base_Forecast"]

/-- Options of the segment selectbox: `roi_df['Segment'].unique()`, which
keeps the first occurrence of each value in table order. -/
def sel_seg_options (roi : List ROIRow) : List String :=
  (roi.map (fun r => r.segment)).foldl (fun acc x => if x ∈ acc then acc else acc ++ [x]) []

/-- Elementwise test `roi_df['Segment'] == sel_seg`.  When the selectbox has
no options it yields `None`, and comparison with `None` is false for every
row. -/
def selMatches (sel : Option String) (r : ROIRow) : Bool :=
  match sel with
  | some s => r.segment == s
  | none => false

/-- Lookup `roi_df[roi_df['Segment'] == sel_seg].iloc[0]`: the first row of
the filtered frame, raising `IndexError` when the filter matches nothing. -/
def seg_data (roi : List ROIRow) (sel : Option String) : Except AppError ROIRow :=
  match roi.filter (selMatches sel) with
  | [] => .error .indexError
  | r :: _ => .ok r

/-- Metric `seg_data['Projected_Gain'] / seg_data['Investment']` (NumPy float
division; never raises). -/
def efficiency_score (r : ROIRow) : PdVal :=
  pdDiv r.projected_gain r.investment

/-- The three detail metrics of the Segment Deep Dive: ROI, break-even
revenue and the profit multiplier of the looked-up row. -/
def roiDetail (roi : List ROIRow) (sel : Option String) :
    Except AppError (ℚ × ℚ × PdVal) :=
  match seg_data roi sel with
  | .error e => .error e
  | .ok r => .ok (r.roi, r.breakeven_revenue, efficiency_score r)

/-- Data bound to the grouped Investment/Projected_Gain bar chart, one entry
per row in table order. -/
def groupedBarData (roi : List ROIRow) : List (String × ℚ × ℚ) :=
  roi.map (fun r => (r.segment, r.investment, r.projected_gain))

/-- Output of one view of the dashboard. -/
inductive View where
  | executive (kpis : ExecKPIs) (pie : List (String × ℚ)) (bar : List ROIRow)
  | segmentation (table : List SegmentRow)
  | forecasting (traces : List Trace)
  | roiAnalysis (grouped : List (String × ℚ × ℚ)) (detail : ℚ × ℚ × PdVal)
deriving DecidableEq

/-- The navigation keys offered by the sidebar radio widget. -/
def validViewKeys : List String :=
  ["Executive Summary", "Customer Segmentation", "Revenue Forecasting", "ROI Analysis"]

/-- The `if page == ... / elif ...` dispatch chain of the script.  A key that
matches no branch renders nothing (`.ok none`): the chain has no `else` arm
and raises no error. -/
def page (key : String) (f : List ForecastRow) (roi : List ROIRow)
    (seg : List SegmentRow) (scenarios : List String) (sel : Option String) :
    Except AppError (Option View) :=
  if key == "Executive Summary" then
    .ok (some (.executive (execKPIs roi seg) (pieData seg) (roiBarData roi)))
  else if key == "Customer Segmentation" then
    .ok (some (.segmentation seg))
  else if key == "Revenue Forecasting" then
    match fig_forecast f scenarios with
    | .error e => .error e
    | .ok ts => .ok (some (.forecasting ts))
  else if key == "ROI Analysis" then
    match roiDetail roi sel with
    | .error e => .error e
    | .ok d => .ok (some (.roiAnalysis (groupedBarData roi) d))
  else .ok none

/-- Test for a line trace with the given scenario name among a figure's
traces. -/
def hasLineNamed (nm : String) (ts : List Trace) : Bool :=
  ts.any (fun t =>
    match t with
    | .line n _ _ => n == nm
    | _ => false)

/-- Outcome of one script run. -/
inductive RunOutput where
  | halted
  | crashed (e : AppError)
  | rendered (v : Option View)
deriving DecidableEq

/-- Whether a run ended with a rendered page (as opposed to halting on a load
failure or crashing on an uncaught exception). -/
def RunOutput.isRendered : RunOutput → Bool
  | .rendered _ => true
  | _ => false

/-- One full script run: `load_data()` inside `try/except`
(`st.error` + `st.stop()` on failure, so nothing further renders), then the
page dispatch; an exception escaping a chart builder aborts the run. -/
def runApp (ff : Option (List RawForecastRow)) (rf : Option (List ROIRow))
    (sf : Option (List SegmentRow)) (key : String) (scenarios : List String)
    (sel : Option String) : RunOutput :=
  match load_data ff rf sf with
  | .error _ => .halted
  | .ok (f, roi, seg) =>
    match page key f roi seg scenarios sel with
    | .error e => .crashed e
    | .ok v => .rendered v

/-- Modelled from the spec: `averageROI(ROITable)` fails with
`EmptyInputError` on zero rows, otherwise returns the arithmetic mean of the
`ROI` column. -/
def averageROISpec (roi : List ROIRow) : Except SpecError ℚ :=
  if roi.isEmpty then .error .emptyInputError
  else .ok ((roi.map (fun r => r.roi)).sum / roi.length)

/-- Modelled from the spec: `profitMultiplier(row)` fails with
`DivisionByZeroError` when `Investment == 0`, otherwise returns
`Projected_Gain / Investment`. -/
def profitMultiplierSpec (r : ROIRow) : Except SpecError ℚ :=
  if r.investment = 0 then .error .divisionByZeroError
  else .ok (r.projected_gain / r.investment)

/-- Modelled from the spec: `totalCustomers(SegmentTable)` fails with
`ValidationError` when some `Customer_Count` is negative or non-integral,
otherwise returns the sum. -/
def totalCustomersSpec (seg : List SegmentRow) : Except SpecError ℤ :=
  if seg.all (fun r => decide (0 ≤ r.customer_count) && r.customer_count.den == 1) then
    .ok (pyInt (seg.map (fun r => r.customer_count)).sum)
  else .error .validationError

/-- Modelled from the spec: `ROIDetailBuilder` fails with
`SegmentNotFoundError` when the number of rows matching the selected segment
is zero or more than one, otherwise returns the unique row's
{ROI, BreakEven_Revenue, profitMultiplier}. -/
def roiDetailSpec (roi : List ROIRow) (sel : String) : Except SpecError (ℚ × ℚ × ℚ) :=
  match roi.filter (fun r => r.segment == sel) with
  | [r] =>
    match profitMultiplierSpec r with
    | .error e => .error e
    | .ok m => .ok (r.roi, r.breakeven_revenue, m)
  | _ => .error .segmentNotFoundError

/-- Modelled from the spec: the View Router fails with `UnknownViewError` on
a key outside the four valid view keys. -/
def renderSpec (key : String) : Except SpecError Unit :=
  if key ∈ validViewKeys then .ok () else .error .unknownViewError

/-! ### Helper lemmas -/

theorem seg_data_cons (a : ROIRow) (l : List ROIRow) (sel : Option String) :
    seg_data (a :: l) sel = if selMatches sel a then .ok a else seg_data l sel := by
  by_cases h : selMatches sel a
  · simp [seg_data, List.filter_cons, h]
  · simp [seg_data, List.filter_cons, h]

theorem seg_data_eq_find (roi : List ROIRow) (sel : Option String) :
    seg_data roi sel =
      match roi.find? (selMatches sel) with
      | some r => .ok r
      | none => .error .indexError := by
  induction roi with
  | nil => rfl
  | cons a l ih =>
    rw [seg_data_cons]
    by_cases h : selMatches sel a
    · simp [List.find?_cons, h]
    · simp only [List.find?_cons]
      rw [if_neg h, ih]
      cases hf : selMatches sel a
      · rfl
      · exact absurd hf (by simp [h])

theorem parseDates_error {l : List RawForecastRow} {r : RawForecastRow}
    (hm : r ∈ l) (hp : parseDateDayFirst r.date = none) :
    parseDates l = .error .parseError := by
  induction l with
  | nil => cases hm
  | cons a t ih =>
    cases hm with
    | head => simp [parseDates, hp]
    | tail _ hm2 =>
      cases hA : parseDateDayFirst a.date with
      | none => simp [parseDates, hA]
      | some d => simp [parseDates, hA, ih hm2]

theorem mem_foldl_dedup (l : List String) (acc : List String) (x : String) :
    x ∈ l.foldl (fun a y => if y ∈ a then a else a ++ [y]) acc ↔ x ∈ acc ∨ x ∈ l := by
  induction l generalizing acc with
  | nil => simp
  | cons b t ih =>
    simp only [List.foldl_cons]
    by_cases hb : b ∈ acc
    · rw [if_pos hb, ih]
      constructor
      · rintro (h | h)
        · exact Or.inl h
        · exact Or.inr (List.mem_cons_of_mem b h)
      · rintro (h | h)
        · exact Or.inl h
        · rcases List.mem_cons.mp h with rfl | h2
          · exact Or.inl hb
          · exact Or.inr h2
    · rw [if_neg hb, ih]
      simp only [List.mem_append, List.mem_singleton, List.mem_cons]
      tauto

theorem nodup_foldl_dedup (l : List String) (acc : List String) (h : acc.Nodup) :
    (l.foldl (fun a y => if y ∈ a then a else a ++ [y]) acc).Nodup := by
  induction l generalizing acc with
  | nil => simpa
  | cons b t ih =>
    simp only [List.foldl_cons]
    by_cases hb : b ∈ acc
    · rw [if_pos hb]; exact ih _ h
    · rw [if_neg hb]
      exact ih _ (by simp [List.nodup_append, h, hb])

theorem fig_forecast_ok {f : List ForecastRow} {scns : List String} {ts : List Trace}
    (h : fig_forecast f scns = .ok ts) :
    ∃ ls, addScenarioLines f scns = .ok ls ∧ ts = bandTrace f :: ls := by
  unfold fig_forecast at h
  cases hA : addScenarioLines f scns with
  | error e => rw [hA] at h; exact absurd h (by simp)
  | ok ls =>
    rw [hA] at h
    exact ⟨ls, rfl, (Except.ok.inj h).symm⟩

/-! ### C1 -/

/-- C1, counterexample: on a zero-row ROITable the code's `avg_roi` KPI is
NaN (pandas `mean()` of an empty column), a normally returned value, while
the spec's `averageROI` demands failure with `EmptyInputError`. -/
theorem C1_cx_avg_roi_empty_is_nan_not_error :
    avg_roi [] = PdVal.nan ∧ averageROISpec [] = .error .emptyInputError :=
  ⟨rfl, rfl⟩

/-- C1, amended: `avg_roi` on a zero-row table evaluates to NaN (it does not
fail), and on a single-row table returns exactly that row's ROI. -/
theorem C1_avg_roi_empty_nan_single_exact :
    avg_roi [] = PdVal.nan ∧ ∀ r : ROIRow, avg_roi [r] = PdVal.fin r.roi := by
  refine ⟨rfl, fun r => ?_⟩
  simp [avg_roi, pdMean]

/-! ### C2 -/

/-- C2, counterexample: at `Investment = 0`, `Projected_Gain = 2500` the
code's profit multiplier silently evaluates to infinity (NumPy float
division), a normally returned value, while the spec's `profitMultiplier`
demands failure with `DivisionByZeroError`. -/
theorem C2_cx_efficiency_score_zero_investment_inf :
    efficiency_score ⟨"Zero", 0, 2500, 2, 100⟩ = PdVal.posInf ∧
    profitMultiplierSpec ⟨"Zero", 0, 2500, 2, 100⟩ = .error .divisionByZeroError := by
  constructor
  · norm_num [efficiency_score, pdDiv]
  · norm_num [profitMultiplierSpec]

/-- C2, amended: for every row, `efficiency_score` returns
`Projected_Gain / Investment` when `Investment ≠ 0`; when `Investment = 0`
it never fails and silently returns a signed infinity (NaN when the gain is
also zero). -/
theorem C2_efficiency_score_division :
    ∀ r : ROIRow,
      (r.investment ≠ 0 →
        efficiency_score r = PdVal.fin (r.projected_gain / r.investment)) ∧
      (r.investment = 0 →
        efficiency_score r =
          if 0 < r.projected_gain then PdVal.posInf
          else if r.projected_gain < 0 then PdVal.negInf
          else PdVal.nan) := by
  intro r
  constructor
  · intro h; simp [efficiency_score, pdDiv, h]
  · intro h; simp [efficiency_score, pdDiv, h]

/-- C2, witness: the amended characterization applied at
`Investment = 1000, Projected_Gain = 2500` and at
`Investment = 0, Projected_Gain = 2500`. -/
theorem C2_witness_efficiency_score :
    efficiency_score ⟨"Seg", 1000, 2500, 2, 100⟩ = PdVal.fin (5 / 2) ∧
    efficiency_score ⟨"Z", 0, 2500, 2, 100⟩ = PdVal.posInf := by
  constructor
  · have h := (C2_efficiency_score_division ⟨"Seg", 1000, 2500, 2, 100⟩).1 (by norm_num)
    rw [h]
    norm_num
  · have h := (C2_efficiency_score_division ⟨"Z", 0, 2500, 2, 100⟩).2 rfl
    rw [h]
    norm_num

/-! ### C8 -/

/-- C8, counterexample: a table with a negative `Customer_Count` is summed
without any validation (the code returns `-5`), while the spec's
`totalCustomers` demands failure with `ValidationError`. -/
theorem C8_cx_total_customers_negative_no_validation :
    total_customers [⟨"C0", "Retain", -5, 1, 1, 1⟩] = -5 ∧
    totalCustomersSpec [⟨"C0", "Retain", -5, 1, 1, 1⟩] = .error .validationError := by
  constructor
  · simp [total_customers]
    decide
  · rfl

/-- C8, amended: `total_customers` equals the truncated arithmetic sum of
`Customer_Count` and is invariant under any permutation of the rows; no
validation of negativity or integrality is performed. -/
theorem C8_total_customers_perm_invariant :
    ∀ l l' : List SegmentRow, l.Perm l' →
      total_customers l = total_customers l' ∧
      total_customers l = pyInt (l.map (fun r => r.customer_count)).sum := by
  intro l l' h
  refine ⟨?_, rfl⟩
  unfold total_customers
  rw [(h.map (fun r => r.customer_count)).sum_eq]

/-- C8, witness: permutation invariance applied to a concrete two-row table
and its swap. -/
theorem C8_witness_total_customers :
    total_customers [⟨"C0", "Retain", 3, 1, 1, 1⟩, ⟨"C1", "Grow", 4, 1, 1, 1⟩] =
      total_customers [⟨"C1", "Grow", 4, 1, 1, 1⟩, ⟨"C0", "Retain", 3, 1, 1, 1⟩] := by
  have hp : ([⟨"C0", "Retain", 3, 1, 1, 1⟩, ⟨"C1", "Grow", 4, 1, 1, 1⟩] : List SegmentRow).Perm
      [⟨"C1", "Grow", 4, 1, 1, 1⟩, ⟨"C0", "Retain", 3, 1, 1, 1⟩] :=
    List.Perm.swap _ _ _
  exact (C8_total_customers_perm_invariant _ _ hp).1

/-! ### C3 -/

/-- C3, counterexample: with two rows sharing Segment "A" the code's detail
lookup succeeds with the first row's metrics, while the spec's
`ROIDetailBuilder` demands failure with `SegmentNotFoundError` whenever the
match count is greater than one. -/
theorem C3_cx_duplicate_segment_no_failure :
    (([⟨"A", 1000, 2500, 2, 100⟩, ⟨"A", 10, 20, 3, 5⟩] : List ROIRow).filter
        (selMatches (some "A"))).length = 2 ∧
    roiDetail [⟨"A", 1000, 2500, 2, 100⟩, ⟨"A", 10, 20, 3, 5⟩] (some "A") =
      .ok (2, 100, PdVal.fin (5 / 2)) ∧
    roiDetailSpec [⟨"A", 1000, 2500, 2, 100⟩, ⟨"A", 10, 20, 3, 5⟩] "A" =
      .error .segmentNotFoundError := by
  refine ⟨by decide, ?_, by decide⟩
  have h : roiDetail [⟨"A", 1000, 2500, 2, 100⟩, ⟨"A", 10, 20, 3, 5⟩] (some "A") =
      .ok (2, 100, efficiency_score ⟨"A", 1000, 2500, 2, 100⟩) := by
    simp [roiDetail, seg_data, selMatches, List.filter]
  rw [h]
  norm_num [efficiency_score, pdDiv]

/-- C3, amended: the detail lookup fails (with a generic `IndexError`) when
zero rows match the selected segment; when one or more rows match it does
not check uniqueness and returns {ROI, BreakEven_Revenue, profit multiplier}
of the first matching row in table order. -/
theorem C3_roiDetail_first_match :
    ∀ (roi : List ROIRow) (s : String),
      (roi.filter (selMatches (some s)) = [] →
        roiDetail roi (some s) = .error .indexError) ∧
      (∀ r rest, roi.filter (selMatches (some s)) = r :: rest →
        roiDetail roi (some s) = .ok (r.roi, r.breakeven_revenue, efficiency_score r)) := by
  intro roi s
  constructor
  · intro h
    simp [roiDetail, seg_data, h]
  · intro r rest h
    simp [roiDetail, seg_data, h]

/-- C3, witness: the amended characterization applied to a concrete one-row
table, at an absent segment name and at the present one. -/
theorem C3_witness_roiDetail :
    roiDetail [⟨"A", 1000, 2500, 2, 100⟩] (some "C") = .error .indexError ∧
    roiDetail [⟨"A", 1000, 2500, 2, 100⟩] (some "A") =
      .ok (2, 100, efficiency_score ⟨"A", 1000, 2500, 2, 100⟩) := by
  constructor
  · exact (C3_roiDetail_first_match [⟨"A", 1000, 2500, 2, 100⟩] "C").1 (by decide)
  · exact (C3_roiDetail_first_match [⟨"A", 1000, 2500, 2, 100⟩] "A").2
      ⟨"A", 1000, 2500, 2, 100⟩ [] (by decide)

/-! ### C4 -/

/-- C4, counterexample: two rows with equal ROI (`2`) come out of the
descending sort in reversed table order, not original order: the sort is a
reversed ascending sort, so ties are not stable. -/
theorem C4_cx_equal_roi_reversed :
    roiBarData [⟨"A", 1, 1, 2, 1⟩, ⟨"B", 1, 1, 2, 1⟩] =
      [⟨"B", 1, 1, 2, 1⟩, ⟨"A", 1, 1, 2, 1⟩] ∧
    (⟨"A", 1, 1, 2, 1⟩ : ROIRow).roi = (⟨"B", 1, 1, 2, 1⟩ : ROIRow).roi := by
  exact ⟨by decide, rfl⟩

/-- C4, amended: the bar chart's row sequence is ordered non-increasing in
ROI and is a permutation of the input table; rows with equal ROI appear in
reversed (not original) table order, because pandas produces the descending
order by reversing a stable ascending sort. -/
theorem C4_roiBarData_sorted_perm :
    ∀ roi : List ROIRow,
      (roiBarData roi).Pairwise (fun a b => b.roi ≤ a.roi) ∧
      (roiBarData roi).Perm roi := by
  intro roi
  constructor
  · have h := List.sorted_insertionSort roiLE roi
    simpa [roiBarData, sort_values_roi_desc, List.pairwise_reverse, roiLE,
      List.Sorted] using h
  · exact (List.reverse_perm _).trans (List.perm_insertionSort roiLE roi)

/-! ### C5 -/

/-- C5, counterexample: with an empty scenario selection the forecasting
figure holds only the confidence band and no `Base_Forecast` line series;
the `default=['Base_Forecast']` of the multiselect is its initial value, not
a fallback for an emptied selection. -/
theorem C5_cx_empty_selection_no_base_line :
    fig_forecast [⟨⟨2025, 1, 31⟩, 10, 20, 5, 25, 3⟩] [] =
      .ok [bandTrace [⟨⟨2025, 1, 31⟩, 10, 20, 5, 25, 3⟩]] ∧
    (fig_forecast [⟨⟨2025, 1, 31⟩, 10, 20, 5, 25, 3⟩] []).map
      (hasLineNamed "Base_Forecast") = .ok false := by
  exact ⟨rfl, rfl⟩

/-- C5, amended: whenever the figure builder succeeds its first trace is the
confidence band (so the band is present for every selection, empty or not);
an empty selection yields the band alone with no line series; the
multiselect's initial default `['Base_Forecast']` yields the band plus the
`Base_Forecast` line. -/
theorem C5_fig_forecast_band_always :
    ∀ (f : List ForecastRow) (scns : List String) (ts : List Trace),
      (fig_forecast f scns = .ok ts → ts.head? = some (bandTrace f)) ∧
      fig_forecast f [] = .ok [bandTrace f] ∧
      fig_forecast f scenariosDefault =
        .ok [bandTrace f, Trace.line "Base_Forecast" (f.map (fun r => r.date))
              (f.map (fun r => r.base_forecast))] := by
  intro f scns ts
  refine ⟨?_, rfl, ?_⟩
  · intro h
    obtain ⟨ls, _, rfl⟩ := fig_forecast_ok h
    rfl
  · simp [fig_forecast, addScenarioLines, scenariosDefault, scenarioColumn]

/-- C5, witness: the band-first property applied to a concrete nonempty
selection on a concrete table. -/
theorem C5_witness_band_first :
    fig_forecast [⟨⟨2025, 1, 31⟩, 10, 20, 5, 25, 3⟩] ["Best_Case"] =
      .ok [bandTrace [⟨⟨2025, 1, 31⟩, 10, 20, 5, 25, 3⟩],
           Trace.line "Best_Case" [⟨2025, 1, 31⟩] [20]] ∧
    ([bandTrace [⟨⟨2025, 1, 31⟩, 10, 20, 5, 25, 3⟩],
      Trace.line "Best_Case" [⟨2025, 1, 31⟩] [20]] : List Trace).head? =
      some (bandTrace [⟨⟨2025, 1, 31⟩, 10, 20, 5, 25, 3⟩]) := by
  have h : fig_forecast [⟨⟨2025, 1, 31⟩, 10, 20, 5, 25, 3⟩] ["Best_Case"] =
      .ok [bandTrace [⟨⟨2025, 1, 31⟩, 10, 20, 5, 25, 3⟩],
           Trace.line "Best_Case" [⟨2025, 1, 31⟩] [20]] := by decide
  exact ⟨h, (C5_fig_forecast_band_always [⟨⟨2025, 1, 31⟩, 10, 20, 5, 25, 3⟩]
    ["Best_Case"] _).1 h⟩

/-! ### C6 -/

/-- C6: whenever the day-first reading of a slash-separated numeric date is
a valid calendar date it is the parse result (so "31/01/2025" is January 31,
2025 and the ambiguous "03/01/2025" is January 3, 2025, never the
month-first reading), and `load_data` fails when any `Date` value of the
forecast file is unparseable. -/
theorem C6_dayfirst_parse_and_load_failure :
    (∀ d m y : ℕ, isValidDate y m d = true → parseTriple d m y = some ⟨y, m, d⟩) ∧
    parseDateDayFirst "31/01/2025" = some ⟨2025, 1, 31⟩ ∧
    parseDateDayFirst "03/01/2025" = some ⟨2025, 1, 3⟩ ∧
    (∀ (fraw : List RawForecastRow) (rrows : List ROIRow) (srows : List SegmentRow)
        (r : RawForecastRow), r ∈ fraw → parseDateDayFirst r.date = none →
      load_data (some fraw) (some rrows) (some srows) = .error .parseError) := by
  refine ⟨?_, by decide, by decide, ?_⟩
  · intro d m y h
    simp [parseTriple, h]
  · intro fraw rrows srows r hm hp
    simp [load_data, read_csv, parseDates_error hm hp]

/-- C6, witness: the day-first reading applied at day 31, month 1, year
2025, and the load failure applied to a one-row file whose date string
"31/13/2025" has no valid reading. -/
theorem C6_witness_dayfirst :
    parseTriple 31 1 2025 = some ⟨2025, 1, 31⟩ ∧
    load_data (some [⟨"31/13/2025", 1, 2, 3, 4, 0⟩]) (some []) (some []) =
      .error .parseError := by
  constructor
  · exact C6_dayfirst_parse_and_load_failure.1 31 1 2025 (by decide)
  · exact C6_dayfirst_parse_and_load_failure.2.2.2 [⟨"31/13/2025", 1, 2, 3, 4, 0⟩] [] []
      ⟨"31/13/2025", 1, 2, 3, 4, 0⟩ (List.mem_singleton.mpr rfl) (by decide)

/-! ### C7 -/

/-- C7, counterexample: on the out-of-range key "Bogus" the dispatch chain
renders nothing and returns normally (it has no `else` arm and raises no
error), while the spec's router demands failure with `UnknownViewError`. -/
theorem C7_cx_unknown_key_no_error :
    page "Bogus" [] [] [] [] none = .ok none ∧
    renderSpec "Bogus" = .error .unknownViewError := by
  exact ⟨rfl, by decide⟩

/-- C7, amended: the dispatch is pure in the view key: each of the four
valid keys delegates to exactly its own chart-builder set, and every other
key renders nothing (`none`) without raising any error. -/
theorem C7_page_dispatch :
    ∀ (f : List ForecastRow) (roi : List ROIRow) (seg : List SegmentRow)
      (scns : List String) (sel : Option String) (k : String),
      page "Executive Summary" f roi seg scns sel =
        .ok (some (.executive (execKPIs roi seg) (pieData seg) (roiBarData roi))) ∧
      page "Customer Segmentation" f roi seg scns sel = .ok (some (.segmentation seg)) ∧
      page "Revenue Forecasting" f roi seg scns sel =
        (match fig_forecast f scns with
         | .error e => .error e
         | .ok ts => .ok (some (.forecasting ts))) ∧
      page "ROI Analysis" f roi seg scns sel =
        (match roiDetail roi sel with
         | .error e => .error e
         | .ok d => .ok (some (.roiAnalysis (groupedBarData roi) d))) ∧
      (k ∉ validViewKeys → page k f roi seg scns sel = .ok none) := by
  intro f roi seg scns sel k
  refine ⟨rfl, rfl, rfl, rfl, ?_⟩
  intro hk
  simp only [validViewKeys, List.mem_cons, List.not_mem_nil, or_false] at hk
  push_neg at hk
  obtain ⟨h1, h2, h3, h4⟩ := hk
  simp [page, h1, h2, h3, h4]

/-- C7, witness: the unknown-key behaviour applied at the concrete key
"Bogus" with empty tables. -/
theorem C7_witness_dispatch :
    page "Bogus" [] [] [] ["Base_Forecast"] none = .ok none :=
  (C7_page_dispatch [] [] [] ["Base_Forecast"] none "Bogus").2.2.2.2 (by decide)

/-! ### C9 -/

/-- C9, counterexample: a run on an empty ROI table (the selectbox then has
no options and the lookup raises) aborts with an uncaught `IndexError`: no
view is rendered at all and no error indicator replaces the chart, while the
claim demands that the view still render around the failed chart. -/
theorem C9_cx_builder_error_aborts_run :
    runApp (some []) (some []) (some []) "ROI Analysis" [] none =
      .crashed .indexError ∧
    (runApp (some []) (some []) (some []) "ROI Analysis" [] none).isRendered = false :=
  ⟨rfl, rfl⟩

/-- C9, amended: a loader failure halts the run before any view is rendered
(error banner plus `st.stop()`), and an error escaping a chart builder
aborts the whole script run (no view output, no per-chart error indicator). -/
theorem C9_error_propagation_policy :
    ∀ (ff : Option (List RawForecastRow)) (rf : Option (List ROIRow))
      (sf : Option (List SegmentRow)) (k : String) (scns : List String)
      (sel : Option String),
      (∀ e, load_data ff rf sf = .error e → runApp ff rf sf k scns sel = .halted) ∧
      (∀ f roi seg e, load_data ff rf sf = .ok (f, roi, seg) →
        page k f roi seg scns sel = .error e →
        runApp ff rf sf k scns sel = .crashed e) := by
  intro ff rf sf k scns sel
  constructor
  · intro e h
    simp [runApp, h]
  · intro f roi seg e h hp
    simp [runApp, h, hp]

/-- C9, witness: the policy applied to a missing forecast file (halt) and to
a builder failure on an empty ROI table (crash). -/
theorem C9_witness_error_policy :
    runApp none (some []) (some []) "Executive Summary" [] none = .halted ∧
    runApp (some []) (some []) (some []) "ROI Analysis" [] none =
      .crashed .indexError := by
  constructor
  · exact (C9_error_propagation_policy none (some []) (some []) "Executive Summary"
      [] none).1 .fileError rfl
  · exact (C9_error_propagation_policy (some []) (some []) (some []) "ROI Analysis"
      [] none).2 [] [] [] .indexError rfl rfl

/-! ### C10 -/

/-- C10: the selectbox options are exactly the distinct Segment values of
the loaded ROI table (in first-occurrence order, with no duplicates), every
offered option has at least one matching row — so the zero-match failure of
the detail lookup is unreachable through the selectbox — and the lookup
returns the first matching row in table order. -/
theorem C10_segment_options_sound :
    ∀ (roi : List ROIRow) (s : String),
      (s ∈ sel_seg_options roi ↔ s ∈ roi.map (fun r => r.segment)) ∧
      (sel_seg_options roi).Nodup ∧
      (s ∈ sel_seg_options roi →
        ∃ r, roi.find? (selMatches (some s)) = some r ∧ r.segment = s ∧
          seg_data roi (some s) = .ok r) := by
  intro roi s
  have hmem : s ∈ sel_seg_options roi ↔ s ∈ roi.map (fun r => r.segment) := by
    unfold sel_seg_options
    rw [mem_foldl_dedup]
    simp
  refine ⟨hmem, nodup_foldl_dedup _ _ List.nodup_nil, ?_⟩
  intro hs
  obtain ⟨r0, hr0, hseg0⟩ := List.mem_map.mp (hmem.mp hs)
  have hsome : (roi.find? (selMatches (some s))).isSome := by
    rw [List.find?_isSome]
    exact ⟨r0, hr0, by simp [selMatches, hseg0]⟩
  obtain ⟨r, hr⟩ := Option.isSome_iff_exists.mp hsome
  have hseg : r.segment = s := by simpa [selMatches] using List.find?_some hr
  refine ⟨r, hr, hseg, ?_⟩
  rw [seg_data_eq_find, hr]

/-- C10, witness: on a table with a duplicated Segment "A", the option "A"
is offered and the lookup returns the first matching row in table order. -/
theorem C10_witness_options :
    "A" ∈ sel_seg_options
      [⟨"A", 1000, 2500, 2, 100⟩, ⟨"B", 10, 20, 3, 5⟩, ⟨"A", 7, 7, 7, 7⟩] ∧
    seg_data [⟨"A", 1000, 2500, 2, 100⟩, ⟨"B", 10, 20, 3, 5⟩, ⟨"A", 7, 7, 7, 7⟩]
      (some "A") = .ok ⟨"A", 1000, 2500, 2, 100⟩ := by
  have hm : "A" ∈ sel_seg_options
      [⟨"A", 1000, 2500, 2, 100⟩, ⟨"B", 10, 20, 3, 5⟩, ⟨"A", 7, 7, 7, 7⟩] := by decide
  obtain ⟨r, hfind, hseg, hdata⟩ := (C10_segment_options_sound
    [⟨"A", 1000, 2500, 2, 100⟩, ⟨"B", 10, 20, 3, 5⟩, ⟨"A", 7, 7, 7, 7⟩] "A").2.2 hm
  have hra : ([⟨"A", 1000, 2500, 2, 100⟩, ⟨"B", 10, 20, 3, 5⟩, ⟨"A", 7, 7, 7, 7⟩] :
      List ROIRow).find? (selMatches (some "A")) = some ⟨"A", 1000, 2500, 2, 100⟩ := by
    decide
  rw [hra] at hfind
  have hr2 : r = ⟨"A", 1000, 2500, 2, 100⟩ := (Option.some.inj hfind).symm
  exact ⟨hm, hr2 ▸ hdata⟩
